import Mathlib

set_option maxRecDepth 8192

/-!
Verification of the chat session controller in `src/components/HelpBox.vue`
(UAVLogViewer). The component's script section is shallowly embedded below:
the reactive `data()` fields become a `ChatState` record, each method becomes
a state-passing function, and the axios round trips are abstracted by outcome
oracles (`AxiosOutcome`, `ClearOutcome`, `ContextOutcome`) that enumerate the
branches the JavaScript error-handling code distinguishes. Timestamps
(`new Date()`) are threaded as explicit `Nat` arguments.
-/

namespace HelpBox

/-- Role tag of a chat message; the source uses the strings "user" and "bot"
in the `type` field. -/
inductive MsgType where
  | user
  | bot
deriving DecidableEq, Repr

/-- One entry of the `messages` array: `{ id, type, text, timestamp }`. -/
structure Msg where
  id : Nat
  type : MsgType
  text : String
  timestamp : Nat
deriving DecidableEq, Repr

/-- The reactive state of the component, from `data()` (plus `sessionId`,
which `mounted()` later overwrites). -/
structure ChatState where
  isOpen : Bool
  currentMessage : String
  isTyping : Bool
  messages : List Msg
  messageIdCounter : Nat
  apiBaseUrl : String
  sessionId : String
deriving DecidableEq, Repr

/-- Seeded greeting text of the initial bot message (id 1). -/
def greetingText : String :=
  "Hello! I\x27m here to help you analyze your UAV flight data. You can ask me questions about your flight logs, telemetry data, or any patterns you\x27d like to explore."

/-- Fallback bot text used when the reply payload has a falsy `response`. -/
def apologyText : String :=
  "I apologize, but I encountered an error processing your request."

/-- Text prepended to the error message appended by `sendMessage`, before
the interpolated `error.message`. -/
def sendErrorLeadText : String :=
  "Sorry, I\x27m having trouble connecting to the analysis service. Please make sure the backend server is running and try again. Error: "

/-- Bot text of the single message the log is reset to on a successful clear. -/
def clearedText : String :=
  "Chat history cleared! How can I help you analyze your flight data?"

/-- Bot text appended when the clear-history call fails. -/
def clearErrorText : String :=
  "Sorry, I couldn\x27t clear the chat history. Please try again."

/-- Bot text of the context summary message appended by `loadChatContext`. -/
def contextText : String :=
  "I can see you have flight data loaded. \n\nWhat would you like to know about your flight data?"

/-- Initial state from `data()`: panel closed, empty input, not typing, one
seeded greeting with id 1, counter 2. `t0` is the mount-time timestamp. -/
def initialState (t0 : Nat) : ChatState :=
  { isOpen := false
    currentMessage := ""
    isTyping := false
    messages := [⟨1, .bot, greetingText, t0⟩]
    messageIdCounter := 2
    apiBaseUrl := "http://localhost:8000"
    sessionId := "default" }

/-- JavaScript `String.prototype.trim`: strip leading and trailing
whitespace. Defined by structural recursion over the character list so that
it evaluates inside the kernel. -/
def jsTrim (s : String) : String :=
  ⟨((s.data.dropWhile Char.isWhitespace).reverse.dropWhile Char.isWhitespace).reverse⟩

/-- JSON body of a reply to POST `/api/chat`, with the fields `callChatAPI`
reads; absent fields are `none`. -/
structure ChatResponseData where
  status : String
  response : Option String
  message : Option String
deriving DecidableEq, Repr

/-- Outcome of the axios POST in `callChatAPI`, enumerating the branches its
catch block distinguishes: a resolved 2xx response with a JSON body, a
connection refusal (`error.code === ECONNREFUSED`), an HTTP error status
(`error.response` present, with `status`, optional `data.detail`, and
`statusText`), no response received (`error.request` present), or any other
request failure carrying an `error.message`. -/
inductive AxiosOutcome where
  | ok (data : ChatResponseData)
  | connRefused
  | httpError (status : Nat) (detail : Option String) (statusText : String)
  | noResponse
  | requestFailure (msg : String)
deriving DecidableEq, Repr

/-- JavaScript `a || b` on an optional string: the fallback is used when the
left side is absent or empty (both falsy). -/
def jsOr (a : Option String) (b : String) : String :=
  match a with
  | none => b
  | some s => if s = "" then b else s

/-- Embedding of `callChatAPI`. The request construction (URL, `message`,
`session_id`, headers, 90s timeout) is the network side and is abstracted by
the outcome `o`; this definition captures the classification logic. A 2xx
body with `status !== success` throws inside the try block, and that plain
Error (no `code`, `response`, or `request` field) is re-caught by the same
catch and falls through to its final else branch. -/
def callChatAPI (o : AxiosOutcome) : Except String ChatResponseData :=
  match o with
  | .ok data =>
      if data.status = "success" then
        .ok data
      else
        .error ("Request error: " ++ jsOr data.message "Chat API returned error status")
  | .connRefused =>
      .error "Cannot connect to the backend service. Please ensure the FastAPI server is running on port 8000."
  | .httpError status detail statusText =>
      .error ("Server error: " ++ toString status ++ " - " ++ jsOr detail statusText)
  | .noResponse =>
      .error "No response from server. Please check your connection."
  | .requestFailure msg =>
      .error ("Request error: " ++ msg)

/-- First, synchronous phase of `sendMessage`, up to the `await`: the guard
rejecting when the trimmed input is empty or the typing flag is set, then pushing the
user message with id `messageIdCounter++`, clearing the input buffer, and
setting the typing flag. Returns `none` when the guard rejects (no transport
call will be made) and `some messageToSend` when a transport call follows. -/
def sendMessageStart (s : ChatState) (t1 : Nat) : ChatState × Option String :=
  if jsTrim s.currentMessage = "" ∨ s.isTyping = true then
    (s, none)
  else
    let messageToSend := jsTrim s.currentMessage
    let userMessage : Msg := ⟨s.messageIdCounter, .user, messageToSend, t1⟩
    ({ s with
        messages := s.messages ++ [userMessage]
        messageIdCounter := s.messageIdCounter + 1
        currentMessage := ""
        isTyping := true }, some messageToSend)

/-- Resumption of `sendMessage` after the awaited `callChatAPI` settles: on
success push a bot message using `response.response || apology`, on error
push the fixed connection-trouble text with the interpolated error message;
the finally block then sets `isTyping = false`. -/
def sendMessageFinish (s : ChatState) (o : AxiosOutcome) (t2 : Nat) : ChatState :=
  let s1 :=
    match callChatAPI o with
    | .ok data =>
        let botMessage : Msg := ⟨s.messageIdCounter, .bot, jsOr data.response apologyText, t2⟩
        { s with
            messages := s.messages ++ [botMessage]
            messageIdCounter := s.messageIdCounter + 1 }
    | .error e =>
        let errorMessage : Msg := ⟨s.messageIdCounter, .bot, sendErrorLeadText ++ e, t2⟩
        { s with
            messages := s.messages ++ [errorMessage]
            messageIdCounter := s.messageIdCounter + 1 }
  { s1 with isTyping := false }

/-- Whole `sendMessage` cycle. The returned flag records whether the
transport call (`callChatAPI`, with outcome `o`) was actually made. -/
def sendMessage (s : ChatState) (o : AxiosOutcome) (t1 t2 : Nat) : ChatState × Bool :=
  match sendMessageStart s t1 with
  | (s1, none) => (s1, false)
  | (s1, some _) => (sendMessageFinish s1 o t2, true)

/-- Outcome of the axios POST to `/api/chat/clear`: resolve or reject. -/
inductive ClearOutcome where
  | success
  | failure
deriving DecidableEq, Repr

/-- Embedding of `clearChat`: when the backend call resolves, the local log
is replaced by a single fresh bot message with id 1 and the counter is reset
to 2; when it rejects, a bot error message with id `messageIdCounter++` is
appended instead. -/
def clearChat (s : ChatState) (o : ClearOutcome) (t : Nat) : ChatState :=
  match o with
  | .success =>
      { s with
          messages := [⟨1, .bot, clearedText, t⟩]
          messageIdCounter := 2 }
  | .failure =>
      { s with
          messages := s.messages ++ [⟨s.messageIdCounter, .bot, clearErrorText, t⟩]
          messageIdCounter := s.messageIdCounter + 1 }

/-- Outcome of the axios GET in `loadChatContext`: a resolved response with a
`status` field and an `available_tables` array, or any rejection (which the
method swallows with a console warning). -/
inductive ContextOutcome where
  | ok (status : String) (availableTables : List String)
  | err
deriving DecidableEq, Repr

/-- Embedding of `loadChatContext`. On a successful response with a
non-empty table list, the summary message is constructed with id
`messageIdCounter++` (the counter is bumped at construction time), and it is
pushed onto the log only if the log still has length 1; otherwise the
constructed message is discarded but the counter bump remains. -/
def loadChatContext (s : ChatState) (o : ContextOutcome) (t : Nat) : ChatState :=
  match o with
  | .err => s
  | .ok status availableTables =>
      if status = "success" ∧ 0 < availableTables.length then
        let contextMessage : Msg := ⟨s.messageIdCounter, .bot, contextText, t⟩
        let s1 := { s with messageIdCounter := s.messageIdCounter + 1 }
        if s1.messages.length = 1 then
          { s1 with messages := s1.messages ++ [contextMessage] }
        else
          s1
      else
        s

/-- Embedding of `toggleChat`: flip `isOpen`; when the panel just became
open, `loadChatContext` runs (issuing its GET unconditionally). The returned
flag records whether a context fetch request was made. -/
def toggleChat (s : ChatState) (o : ContextOutcome) (t : Nat) : ChatState × Bool :=
  let s1 := { s with isOpen := !s.isOpen }
  if s1.isOpen then (loadChatContext s1 o t, true) else (s1, false)

/-- One user-visible event of the controller: typing into the input buffer
(the `v-model` binding), toggling the panel, a full send cycle, or a clear.
Each network-touching event carries its outcome oracle and timestamps. -/
inductive Event where
  | setInput (text : String)
  | toggle (o : ContextOutcome) (t : Nat)
  | send (o : AxiosOutcome) (t1 t2 : Nat)
  | clear (o : ClearOutcome) (t : Nat)
deriving DecidableEq, Repr

/-- Step function of the controller over events. -/
def step (s : ChatState) (e : Event) : ChatState :=
  match e with
  | .setInput text => { s with currentMessage := text }
  | .toggle o t => (toggleChat s o t).1
  | .send o t1 t2 => (sendMessage s o t1 t2).1
  | .clear o t => clearChat s o t

/-- Run a sequence of events from a state. -/
def run (s : ChatState) (es : List Event) : ChatState :=
  es.foldl step s

/-- Fold a burst of `sendMessage` calls, counting how many were dispatched
to the transport. -/
def sendBurstStep (acc : ChatState × Nat) (c : AxiosOutcome × Nat × Nat) : ChatState × Nat :=
  let r := sendMessage acc.1 c.1 c.2.1 c.2.2
  (r.1, acc.2 + (if r.2 then 1 else 0))

/-- Result state and dispatch count of a sequence of `sendMessage` calls. -/
def sendBurst (s : ChatState) (calls : List (AxiosOutcome × Nat × Nat)) : ChatState × Nat :=
  calls.foldl sendBurstStep (s, 0)

/-- Text of the bot message `sendMessageFinish` appends for outcome `o`. -/
def replyText (o : AxiosOutcome) : String :=
  match callChatAPI o with
  | .ok data => jsOr data.response apologyText
  | .error e => sendErrorLeadText ++ e

/-- Id-discipline invariant of the controller state: the ids along the log
are strictly increasing (hence unique), and every id in the log is below the
counter that will stamp the next constructed message. -/
def goodIds (s : ChatState) : Prop :=
  List.Pairwise (· < ·) (s.messages.map Msg.id) ∧
  ∀ m ∈ s.messages, m.id < s.messageIdCounter

/-- Event sequence witnessing a gap in the ids: a completed send, then an
opening toggle whose context response passes the status check while the log
is longer than the seeded greeting (burning an id), then another send. -/
def demoEvents : List Event :=
  [ .setInput "hi"
  , .send (.ok ⟨"success", some "reply", none⟩) 1 2
  , .toggle (.ok "success" ["GPS", "ATT"]) 3
  , .setInput "more"
  , .send (.ok ⟨"success", some "again", none⟩) 4 5 ]

/-- A state with pending input while the panel is closed. -/
def c8State : ChatState := { initialState 0 with currentMessage := "hello" }

/-- A state whose log holds the greeting plus one completed exchange. -/
def c5State : ChatState :=
  { initialState 0 with
      messages := [⟨1, .bot, greetingText, 0⟩, ⟨2, .user, "hello", 1⟩, ⟨3, .bot, "hi", 2⟩]
      messageIdCounter := 4 }

/-- A state with pending input, used to exercise a full send cycle. -/
def c4State : ChatState := { initialState 0 with currentMessage := "status?" }

/-- When the guard condition holds, the synchronous phase returns the state
unchanged and announces no transport call. -/
theorem sendMessageStart_noop (s : ChatState) (t1 : Nat)
    (h : jsTrim s.currentMessage = "" ∨ s.isTyping = true) :
    sendMessageStart s t1 = (s, none) := by
  unfold sendMessageStart
  rw [if_pos h]

/-- Explicit form of the synchronous phase when the guard passes. -/
theorem sendMessageStart_pass (s : ChatState) (t1 : Nat)
    (h : ¬(jsTrim s.currentMessage = "" ∨ s.isTyping = true)) :
    sendMessageStart s t1 =
      ({ s with
          messages := s.messages ++ [⟨s.messageIdCounter, .user, jsTrim s.currentMessage, t1⟩]
          messageIdCounter := s.messageIdCounter + 1
          currentMessage := ""
          isTyping := true }, some (jsTrim s.currentMessage)) := by
  unfold sendMessageStart
  rw [if_neg h]

/-- A guarded-out `sendMessage` changes nothing and dispatches nothing. -/
theorem sendMessage_noop (s : ChatState) (o : AxiosOutcome) (t1 t2 : Nat)
    (h : jsTrim s.currentMessage = "" ∨ s.isTyping = true) :
    sendMessage s o t1 t2 = (s, false) := by
  unfold sendMessage
  rw [sendMessageStart_noop s t1 h]

/-- Explicit form of the resumption: one bot message is appended and the
typing flag is lowered, whatever the outcome. -/
theorem sendMessageFinish_eq (s : ChatState) (o : AxiosOutcome) (t2 : Nat) :
    sendMessageFinish s o t2 =
      { s with
          messages := s.messages ++ [⟨s.messageIdCounter, .bot, replyText o, t2⟩]
          messageIdCounter := s.messageIdCounter + 1
          isTyping := false } := by
  unfold sendMessageFinish replyText
  cases callChatAPI o <;> rfl

/-- Explicit form of a full send cycle when the guard passes. -/
theorem sendMessage_pass (s : ChatState) (o : AxiosOutcome) (t1 t2 : Nat)
    (h : ¬(jsTrim s.currentMessage = "" ∨ s.isTyping = true)) :
    sendMessage s o t1 t2 =
      ({ s with
          messages :=
            (s.messages ++ [⟨s.messageIdCounter, .user, jsTrim s.currentMessage, t1⟩]) ++
              [⟨s.messageIdCounter + 1, .bot, replyText o, t2⟩]
          messageIdCounter := s.messageIdCounter + 2
          currentMessage := ""
          isTyping := false }, true) := by
  unfold sendMessage
  rw [sendMessageStart_pass s t1 h]
  simp only [sendMessageFinish_eq]

/-- A burst of sends starting from a busy state leaves the state untouched
and dispatches nothing, whatever the fold's accumulator. -/
theorem sendBurst_busy (calls : List (AxiosOutcome × Nat × Nat)) :
    ∀ (s : ChatState) (n : Nat), s.isTyping = true →
      calls.foldl sendBurstStep (s, n) = (s, n) := by
  induction calls with
  | nil => intro s n _; rfl
  | cons c cs ih =>
      intro s n h
      have hno : sendMessage s c.1 c.2.1 c.2.2 = (s, false) :=
        sendMessage_noop s c.1 c.2.1 c.2.2 (Or.inr h)
      simp only [List.foldl_cons, sendBurstStep, hno]
      simpa using ih s n h

/-- Appending a message whose id strictly dominates the log keeps the id
sequence strictly increasing. -/
theorem pairwise_ids_snoc (ms : List Msg) (m : Msg)
    (hp : List.Pairwise (· < ·) (ms.map Msg.id))
    (hb : ∀ x ∈ ms, x.id < m.id) :
    List.Pairwise (· < ·) ((ms ++ [m]).map Msg.id) := by
  rw [List.map_append]
  refine List.pairwise_append.2 ⟨hp, List.pairwise_singleton _ _, ?_⟩
  intro a ha b hbm
  simp only [List.map_cons, List.map_nil, List.mem_singleton] at hbm
  subst hbm
  rcases List.mem_map.1 ha with ⟨x, hx, rfl⟩
  exact hb x hx

/-- Appending one message below a bound preserves the bound on the log. -/
theorem bounds_snoc (ms : List Msg) (m : Msg) (c : Nat)
    (hb : ∀ x ∈ ms, x.id < c) (hm : m.id < c) :
    ∀ x ∈ ms ++ [m], x.id < c := by
  intro x hx
  rcases List.mem_append.1 hx with hx | hx
  · exact hb x hx
  · rw [List.mem_singleton] at hx
    subst hx
    exact hm

/-- An id bound on the log is monotone in the bound. -/
theorem bounds_mono (ms : List Msg) (c cBig : Nat) (hcc : c ≤ cBig)
    (hb : ∀ x ∈ ms, x.id < c) : ∀ x ∈ ms, x.id < cBig :=
  fun x hx => lt_of_lt_of_le (hb x hx) hcc

/-- `clearChat` preserves the id discipline on both outcomes. -/
theorem goodIds_clearChat (s : ChatState) (o : ClearOutcome) (t : Nat)
    (h : goodIds s) : goodIds (clearChat s o t) := by
  cases o with
  | success =>
      refine ⟨List.pairwise_singleton _ _, ?_⟩
      intro m hm
      rw [show (clearChat s .success t).messages = [⟨1, .bot, clearedText, t⟩] from rfl,
          List.mem_singleton] at hm
      subst hm
      exact Nat.one_lt_two
  | failure =>
      exact ⟨pairwise_ids_snoc _ _ h.1 h.2,
             bounds_snoc _ _ _ (bounds_mono _ _ _ (Nat.le_succ _) h.2) (Nat.lt_succ_self _)⟩

/-- `loadChatContext` preserves the id discipline on every outcome. -/
theorem goodIds_loadChatContext (s : ChatState) (o : ContextOutcome) (t : Nat)
    (h : goodIds s) : goodIds (loadChatContext s o t) := by
  cases o with
  | err => exact h
  | ok status availableTables =>
      simp only [loadChatContext]
      split
      · split
        · exact ⟨pairwise_ids_snoc _ _ h.1 h.2,
                 bounds_snoc _ _ _ (bounds_mono _ _ _ (Nat.le_succ _) h.2) (Nat.lt_succ_self _)⟩
        · exact ⟨h.1, bounds_mono _ _ _ (Nat.le_succ _) h.2⟩
      · exact h

/-- Every controller event preserves the id discipline. -/
theorem goodIds_step (s : ChatState) (e : Event) (h : goodIds s) :
    goodIds (step s e) := by
  cases e with
  | setInput text => exact h
  | clear o t => exact goodIds_clearChat s o t h
  | toggle o t =>
      show goodIds (toggleChat s o t).1
      simp only [toggleChat]
      split
      · exact goodIds_loadChatContext _ o t h
      · exact h
  | send o t1 t2 =>
      show goodIds (sendMessage s o t1 t2).1
      by_cases hg : jsTrim s.currentMessage = "" ∨ s.isTyping = true
      · rw [sendMessage_noop s o t1 t2 hg]
        exact h
      · rw [sendMessage_pass s o t1 t2 hg]
        have hb1 : ∀ x ∈ s.messages ++ [(⟨s.messageIdCounter, .user, jsTrim s.currentMessage, t1⟩ : Msg)],
            x.id < s.messageIdCounter + 1 :=
          bounds_snoc _ _ _ (bounds_mono _ _ _ (Nat.le_succ _) h.2) (Nat.lt_succ_self _)
        refine ⟨pairwise_ids_snoc _ _ (pairwise_ids_snoc _ _ h.1 h.2) hb1, ?_⟩
        exact bounds_snoc _ _ _
          (bounds_mono _ _ _ (Nat.le_succ _) hb1)
          (Nat.lt_succ_self _)

/-- C1: a `sendMessage` call whose input trims to empty or which finds the
typing flag set is a no-op (state unchanged, no transport dispatch); every
burst of `sendMessage` calls issued while the typing flag is set dispatches
nothing; and a call that passes the guard dispatches its trimmed text and
raises the typing flag, so of a rapid sequence only the first call is
dispatched. -/
theorem c1_sendMessage_guard_noop :
    (∀ (s : ChatState) (o : AxiosOutcome) (t1 t2 : Nat),
      jsTrim s.currentMessage = "" ∨ s.isTyping = true →
        sendMessage s o t1 t2 = (s, false)) ∧
    (∀ (s : ChatState) (calls : List (AxiosOutcome × Nat × Nat)),
      s.isTyping = true → sendBurst s calls = (s, 0)) ∧
    (∀ (s : ChatState) (t1 : Nat),
      jsTrim s.currentMessage ≠ "" → s.isTyping = false →
        (sendMessageStart s t1).1.isTyping = true ∧
        (sendMessageStart s t1).2 = some (jsTrim s.currentMessage)) := by
  refine ⟨fun s o t1 t2 h => sendMessage_noop s o t1 t2 h,
          fun s calls h => sendBurst_busy calls s 0 h,
          fun s t1 h1 h2 => ?_⟩
  have h : ¬(jsTrim s.currentMessage = "" ∨ s.isTyping = true) := by
    rintro (h | h)
    · exact h1 h
    · rw [h2] at h
      cases h
  rw [sendMessageStart_pass s t1 h]
  exact ⟨rfl, rfl⟩

/-- Witness for C1: a concrete busy state rejects a single send and a burst
of two sends without dispatching or changing state. -/
theorem c1_witness :
    sendMessage { initialState 0 with isTyping := true, currentMessage := "hi" } .noResponse 0 0 =
      ({ initialState 0 with isTyping := true, currentMessage := "hi" }, false) ∧
    sendBurst { initialState 0 with isTyping := true } [(.noResponse, 0, 0), (.connRefused, 1, 2)] =
      ({ initialState 0 with isTyping := true }, 0) :=
  ⟨c1_sendMessage_guard_noop.1 _ .noResponse 0 0 (Or.inr rfl),
   c1_sendMessage_guard_noop.2.1 _ _ rfl⟩

/-- C2: `clearChat` resets the log to a single fresh seeded bot message with
id 1 and the counter to 2 exactly when the clear-history call succeeds; when
it fails, the log is unchanged except for one appended bot error message and
the counter is merely incremented, not reset. -/
theorem c2_clearChat_reset_iff_success :
    ∀ (s : ChatState) (o : ClearOutcome) (t : Nat),
      (o = .success →
        clearChat s o t =
          { s with messages := [⟨1, .bot, clearedText, t⟩], messageIdCounter := 2 }) ∧
      (o = .failure →
        clearChat s o t =
          { s with
              messages := s.messages ++ [⟨s.messageIdCounter, .bot, clearErrorText, t⟩]
              messageIdCounter := s.messageIdCounter + 1 }) := by
  intro s o t
  constructor <;> rintro rfl <;> rfl

/-- Witness for C2: both clear outcomes evaluated at the initial state. -/
theorem c2_witness :
    clearChat (initialState 0) .success 5 =
      { initialState 0 with messages := [⟨1, .bot, clearedText, 5⟩], messageIdCounter := 2 } ∧
    clearChat (initialState 0) .failure 5 =
      { initialState 0 with
          messages := (initialState 0).messages ++ [⟨2, .bot, clearErrorText, 5⟩]
          messageIdCounter := 3 } :=
  ⟨(c2_clearChat_reset_iff_success (initialState 0) .success 5).1 rfl,
   (c2_clearChat_reset_iff_success (initialState 0) .failure 5).2 rfl⟩

/-- C3 counterexample: from the initial state, the first toggle opens the
panel and issues a context fetch, the second closes it, and the third —
a subsequent open of the panel — issues a context fetch again, contradicting
the claim that only the first open fetches. -/
theorem c3_counterexample :
    (toggleChat (initialState 0) .err 0).2 = true ∧
    (toggleChat (initialState 0) .err 0).1.isOpen = true ∧
    (toggleChat (toggleChat (initialState 0) .err 0).1 .err 0).2 = false ∧
    (toggleChat (toggleChat (initialState 0) .err 0).1 .err 0).1.isOpen = false ∧
    (toggleChat (toggleChat (toggleChat (initialState 0) .err 0).1 .err 0).1 .err 0).2 = true := by
  decide

/-- C3 amended: a context fetch is issued on every closed-to-open transition
of the panel, not only the first; what is guarded is the summary message,
which `loadChatContext` appends only while the log still has length 1. -/
theorem c3_context_fetch_every_open :
    ∀ (s : ChatState) (o : ContextOutcome) (t : Nat),
      (toggleChat s o t).2 = !s.isOpen ∧
      (s.messages.length ≠ 1 → (loadChatContext s o t).messages = s.messages) := by
  intro s o t
  constructor
  · simp only [toggleChat]
    cases hcase : s.isOpen <;> simp [hcase]
  · intro hlen
    cases o with
    | err => rfl
    | ok status availableTables =>
        simp only [loadChatContext]
        split
        · rfl
        · rfl

/-- Witness for C3: the amended statement evaluated at a concrete state
whose log is empty, so no summary is appended. -/
theorem c3_witness :
    (toggleChat (initialState 5) .err 6).2 = !(initialState 5).isOpen ∧
    (loadChatContext { initialState 5 with messages := [] } (.ok "success" ["GPS"]) 6).messages =
      ({ initialState 5 with messages := [] } : ChatState).messages :=
  ⟨(c3_context_fetch_every_open (initialState 5) .err 6).1,
   (c3_context_fetch_every_open { initialState 5 with messages := [] }
      (.ok "success" ["GPS"]) 6).2 (by decide)⟩

/-- C4 counterexample: a 2xx response whose payload carries a non-success
status field is classified by the final else branch of the catch as a
request error, and the bot message appended for it contains no digit at all,
so it cannot include a numeric status code. -/
theorem c4_counterexample :
    callChatAPI (.ok ⟨"error", none, none⟩) =
      .error "Request error: Chat API returned error status" ∧
    (sendMessage c4State (.ok ⟨"error", none, none⟩) 0 0).1.messages.map Msg.text =
      [greetingText, "status?",
       sendErrorLeadText ++ "Request error: Chat API returned error status"] ∧
    ((sendErrorLeadText ++ "Request error: Chat API returned error status").data.all
      (fun c => !c.isDigit)) = true :=
  ⟨rfl, by decide, by decide⟩

/-- C4 amended: an error HTTP status is classified as a server error whose
message carries the numeric status and the detail (or status text), and that
text reaches the appended bot message; a non-success status field on an HTTP
success is instead classified through the generic request-error branch,
echoing the payload's message field or a fixed fallback, with no status
code. -/
theorem c4_server_error_classification :
    (∀ (status : Nat) (detail : Option String) (statusText : String),
      callChatAPI (.httpError status detail statusText) =
        .error ("Server error: " ++ toString status ++ " - " ++ jsOr detail statusText)) ∧
    (∀ data : ChatResponseData, data.status ≠ "success" →
      callChatAPI (.ok data) =
        .error ("Request error: " ++ jsOr data.message "Chat API returned error status")) ∧
    (∀ (s : ChatState) (status : Nat) (detail : Option String) (statusText : String) (t2 : Nat),
      (sendMessageFinish s (.httpError status detail statusText) t2).messages =
        s.messages ++ [⟨s.messageIdCounter, .bot,
          sendErrorLeadText ++
            ("Server error: " ++ toString status ++ " - " ++ jsOr detail statusText), t2⟩]) := by
  refine ⟨fun status detail statusText => rfl, fun data h => ?_,
          fun s status detail statusText t2 => rfl⟩
  simp only [callChatAPI]
  rw [if_neg h]

/-- Witness for C4: the classification evaluated at a 500 with a detail
string and at a 200 whose payload status is a failure. -/
theorem c4_witness :
    callChatAPI (.httpError 500 (some "boom") "Internal Server Error") =
      .error ("Server error: " ++ toString 500 ++ " - " ++ jsOr (some "boom") "Internal Server Error") ∧
    callChatAPI (.ok ⟨"failed", none, some "db down"⟩) =
      .error ("Request error: " ++ jsOr (some "db down") "Chat API returned error status") :=
  ⟨c4_server_error_classification.1 500 (some "boom") "Internal Server Error",
   c4_server_error_classification.2.1 ⟨"failed", none, some "db down"⟩ (by decide)⟩

/-- C5 counterexample: on a failed clear-history call the local clear is not
performed: a three-message log grows to four, is not replaced by the fresh
seeded message, and the counter is incremented rather than reset. -/
theorem c5_counterexample :
    (clearChat c5State .failure 9).messages.length = 4 ∧
    (clearChat c5State .failure 9).messages ≠ [⟨1, .bot, clearedText, 9⟩] ∧
    (clearChat c5State .failure 9).messageIdCounter = 5 := by
  decide

/-- C5 amended: the local clear is gated on the server call succeeding: on
failure the existing log is kept and exactly one bot error message is
appended to surface the error, the counter advancing by one; only on success
is the log replaced by the fresh seeded message. -/
theorem c5_clear_failure_keeps_log :
    ∀ (s : ChatState) (t : Nat),
      (clearChat s .failure t).messages =
        s.messages ++ [⟨s.messageIdCounter, .bot, clearErrorText, t⟩] ∧
      (clearChat s .failure t).messageIdCounter = s.messageIdCounter + 1 ∧
      (clearChat s .success t).messages = [⟨1, .bot, clearedText, t⟩] := by
  intro s t
  exact ⟨rfl, rfl, rfl⟩

/-- C6: when the guard passes, the synchronous phase of `sendMessage` first
appends the user message with the trimmed text and the next id, clears the
input buffer and raises the typing flag, and only then is the transport
called; consequently the final log holds the user message immediately before
the bot reply or error message. -/
theorem c6_send_ordering :
    ∀ (s : ChatState) (o : AxiosOutcome) (t1 t2 : Nat),
      jsTrim s.currentMessage ≠ "" → s.isTyping = false →
      sendMessageStart s t1 =
        ({ s with
            messages := s.messages ++ [⟨s.messageIdCounter, .user, jsTrim s.currentMessage, t1⟩]
            messageIdCounter := s.messageIdCounter + 1
            currentMessage := ""
            isTyping := true }, some (jsTrim s.currentMessage)) ∧
      (sendMessage s o t1 t2).1.messages =
        s.messages ++ [⟨s.messageIdCounter, .user, jsTrim s.currentMessage, t1⟩,
                       ⟨s.messageIdCounter + 1, .bot, replyText o, t2⟩] ∧
      (⟨s.messageIdCounter + 1, .bot, replyText o, t2⟩ : Msg).type = .bot := by
  intro s o t1 t2 h1 h2
  have h : ¬(jsTrim s.currentMessage = "" ∨ s.isTyping = true) := by
    rintro (h | h)
    · exact h1 h
    · rw [h2] at h
      cases h
  refine ⟨sendMessageStart_pass s t1 h, ?_, rfl⟩
  rw [sendMessage_pass s o t1 t2 h]
  simp [List.append_assoc]

/-- Witness for C6: the ordering property evaluated at a concrete send. -/
theorem c6_witness :
    (sendMessage { initialState 0 with currentMessage := "hi" } .noResponse 3 4).1.messages =
      (initialState 0).messages ++
        [⟨2, .user, jsTrim "hi", 3⟩, ⟨3, .bot, replyText .noResponse, 4⟩] :=
  ((c6_send_ordering { initialState 0 with currentMessage := "hi" } .noResponse 3 4
      (by decide) rfl).2).1

/-- C7: a send that passed the guard ends with the typing flag lowered, and
the resumption lowers the flag as its final step on every outcome, success
and every failure alike. -/
theorem c7_busy_false_after_send :
    ∀ (s : ChatState) (o : AxiosOutcome) (t1 t2 : Nat),
      (¬(jsTrim s.currentMessage = "" ∨ s.isTyping = true) →
        (sendMessage s o t1 t2).1.isTyping = false) ∧
      (∀ s1 : ChatState, (sendMessageFinish s1 o t2).isTyping = false) := by
  intro s o t1 t2
  refine ⟨fun h => ?_, fun s1 => ?_⟩
  · rw [sendMessage_pass s o t1 t2 h]
  · rw [sendMessageFinish_eq]

/-- Witness for C7: a concrete guarded send ends not typing. -/
theorem c7_witness :
    (sendMessage { initialState 0 with currentMessage := "hi" } .connRefused 0 0).1.isTyping = false :=
  (c7_busy_false_after_send { initialState 0 with currentMessage := "hi" } .connRefused 0 0).1
    (by decide)

/-- C8 counterexample: with the panel closed and a non-empty input, the send
is not rejected: the transport is dispatched and the log grows. -/
theorem c8_counterexample :
    c8State.isOpen = false ∧
    (sendMessage c8State (.ok ⟨"success", some "hi there", none⟩) 0 0).2 = true ∧
    (sendMessage c8State (.ok ⟨"success", some "hi there", none⟩) 0 0).1.messages.length = 3 := by
  decide

/-- C8 amended: `sendMessage` never consults the panel-visibility flag: its
guard checks only the trimmed input and the typing flag, its behavior is the
same with the panel closed or open, and it preserves the flag. -/
theorem c8_send_independent_of_isOpen :
    ∀ (s : ChatState) (b : Bool) (o : AxiosOutcome) (t1 t2 : Nat),
      sendMessage { s with isOpen := b } o t1 t2 =
        ({ (sendMessage s o t1 t2).1 with isOpen := b }, (sendMessage s o t1 t2).2) := by
  intro s b o t1 t2
  by_cases h : jsTrim s.currentMessage = "" ∨ s.isTyping = true
  · rw [sendMessage_noop s o t1 t2 h, sendMessage_noop { s with isOpen := b } o t1 t2 h]
  · rw [sendMessage_pass s o t1 t2 h, sendMessage_pass { s with isOpen := b } o t1 t2 h]

/-- C9: the ids along the log are strictly increasing (hence unique), every
id stays below the counter, both facts are preserved by every controller
event, and ids are not contiguous: a trace in which `loadChatContext` burns
an id while its length guard fails yields the id sequence 1, 2, 3, 5, 6. -/
theorem c9_ids_increasing_unique_not_contiguous :
    (∀ t0 : Nat, goodIds (initialState t0)) ∧
    (∀ (s : ChatState) (e : Event), goodIds s → goodIds (step s e)) ∧
    (run (initialState 0) demoEvents).messages.map Msg.id = [1, 2, 3, 5, 6] := by
  refine ⟨fun t0 => ⟨List.pairwise_singleton _ _, ?_⟩,
          fun s e h => goodIds_step s e h, by decide⟩
  intro m hm
  rw [show (initialState t0).messages = [⟨1, .bot, greetingText, t0⟩] from rfl,
      List.mem_singleton] at hm
  subst hm
  exact Nat.one_lt_two

/-- Witness for C9: the invariant holds initially and is preserved by a
concrete failed-clear event. -/
theorem c9_witness :
    goodIds (initialState 0) ∧ goodIds (step (initialState 0) (.clear .failure 1)) :=
  ⟨c9_ids_increasing_unique_not_contiguous.1 0,
   c9_ids_increasing_unique_not_contiguous.2.1 (initialState 0) (.clear .failure 1)
     (c9_ids_increasing_unique_not_contiguous.1 0)⟩

/-- C10: `clearChat` neither reads nor writes the panel-visibility flag, the
input buffer, the typing flag, or the session id: on both outcomes those
fields are unchanged, and its result is independent of each of them, so it
may run while a send is in flight. -/
theorem c10_clearChat_frame :
    ∀ (s : ChatState) (o : ClearOutcome) (t : Nat),
      (clearChat s o t).isOpen = s.isOpen ∧
      (clearChat s o t).currentMessage = s.currentMessage ∧
      (clearChat s o t).isTyping = s.isTyping ∧
      (clearChat s o t).sessionId = s.sessionId ∧
      (clearChat s o t).apiBaseUrl = s.apiBaseUrl ∧
      (∀ b : Bool, clearChat { s with isTyping := b } o t = { clearChat s o t with isTyping := b }) ∧
      (∀ b : Bool, clearChat { s with isOpen := b } o t = { clearChat s o t with isOpen := b }) ∧
      (∀ text : String,
        clearChat { s with currentMessage := text } o t =
          { clearChat s o t with currentMessage := text }) ∧
      (∀ sid : String,
        clearChat { s with sessionId := sid } o t = { clearChat s o t with sessionId := sid }) := by
  intro s o t
  cases o <;>
    exact ⟨rfl, rfl, rfl, rfl, rfl, fun b => rfl, fun b => rfl, fun text => rfl, fun sid => rfl⟩

end HelpBox
